import Mathlib

/-!
# Verification of the gitbook2pdf orchestration core

Shallow embedding of the `gb2pdf` repository (TypeScript) in Lean 4.

The repository ships two implementations:

* a legacy script (`index.ts` of the first revision): `fetchSitemap`, `run`,
  `categorizeUrl`, `createFilename`;
* the enhanced `GitBookToPDFConverter` class: `fetchSitemap` (with retry and
  alternative-path logic), `filterUrls`, `convertToPDF`, `loadProgress`,
  `saveProgress`, `process`, and the CLI `setupCLI`.

External collaborators (HTTP fetch + XML parsing, the Puppeteer renderer,
regular-expression matching, the filesystem and wall clock) are modelled as
explicit function parameters ("worlds"); everything the repository itself
computes is translated directly from the source.  Network recursion is given
an explicit fuel parameter; running out of fuel yields the distinguished
value `FetchResult.fuelOut`, never confused with an ordinary error.
-/

/-- PDF page format, from the CLI `format` option (`'A4' | 'A3' | 'Letter'`). -/
inductive PdfFormat
  | A4
  | A3
  | Letter
deriving DecidableEq

/-- Render quality, from the CLI `quality` option (`'low' | 'medium' | 'high'`). -/
inductive Quality
  | low
  | medium
  | high
deriving DecidableEq

/-- Run configuration, from `interface Config` in `types.ts` plus the `merge`
field that `setupCLI` adds to the object it returns. -/
structure Config where
  url : String
  outputDir : String
  concurrency : Nat
  retries : Nat
  delay : Nat
  hideElements : Bool
  format : PdfFormat
  quality : Quality
  resume : Bool
  includePatterns : List String
  excludePatterns : List String
  timeout : Nat
  merge : Bool
deriving DecidableEq

/-- Run statistics, from `interface ProcessingStats` in `types.ts`. -/
structure ProcessingStats where
  total : Nat
  successful : Nat
  failed : Nat
  skipped : Nat
  totalSize : Nat
  totalDuration : Nat
deriving DecidableEq

/-- Per-task outcome, from `interface ProcessingResult` in `types.ts`.
`duration` is always set by `convertToPDF`, so it is not optional here. -/
structure ProcessingResult where
  url : String
  success : Bool
  error : Option String
  outputPath : Option String
  size : Option Nat
  duration : Nat
deriving DecidableEq

/-- Extracted page content, from `interface PageContent` (merge mode). -/
structure PageContent where
  url : String
  title : String
  html : String
deriving DecidableEq

/-- The persisted progress file written by `saveProgress`:
`{ processedUrls, stats, timestamp }`.  JSON serialisation itself is an
external primitive; the file is modelled as the structured value. -/
structure Checkpoint where
  processedUrls : List String
  stats : ProcessingStats
  timestamp : String
deriving DecidableEq

/-- The converter's mutable run state: `this.stats` and `this.processedUrls`.
The JS `Set<string>` is modelled as a duplicate-free list in insertion
order. -/
structure RunState where
  stats : ProcessingStats
  processedUrls : List String
deriving DecidableEq

/-- Outcome of one invocation of the external Puppeteer renderer for a URL:
either a PDF of some size, or a thrown error message; either way it takes
some wall-clock duration. -/
inductive RenderOutcome
  | ok (size : Nat) (duration : Nat)
  | fail (error : String) (duration : Nat)
deriving DecidableEq

/-- A fetch error thrown by the HTTP collaborator (axios); the legacy code
distinguishes HTTP 404 from other failures. -/
inductive FetchErr
  | notFound
  | other
deriving DecidableEq

/-- The `loc` of a sitemap `<url>` entry: the source format allows a single
string or a list of strings (`loc: string | string[]` in `types.ts`). -/
inductive SitemapLoc
  | single (s : String)
  | multi (ls : List String)
deriving DecidableEq

/-- One entry of a urlset: either a bare string or an object with a `loc`
(`SitemapUrl` in `types.ts`; `xml2js` can yield either). -/
inductive SitemapEntry
  | str (s : String)
  | entry (loc : SitemapLoc)
deriving DecidableEq

/-- The shape of a parsed sitemap document (`ParsedSitemap` in `types.ts`):
a sitemap index (child sitemap locations), a urlset, or anything else. -/
inductive ParsedShape
  | sitemapindex (children : List String)
  | urlset (entries : List SitemapEntry)
  | unknown
deriving DecidableEq

/-- Result of a sitemap resolution: a URL list, a failure (the legacy code's
`null` / the enhanced code's thrown error), or exhaustion of the model's
recursion fuel (a model artifact, distinct from both). -/
inductive FetchResult
  | ok (urls : List String)
  | err
  | fuelOut
deriving DecidableEq

/-- The external fetch+parse collaborator: what `axios.get` followed by
`xml2js.parseStringPromise` produces for each URL. -/
abbrev World := String → Except FetchErr ParsedShape

/-- The external regular-expression engine: `new RegExp(pattern).test(url)`,
as a black-box Boolean matcher. -/
abbrev Matcher := String → String → Bool

/-- JS `Set.add`: append the element unless it is already present. -/
def jsSetInsert (s : List String) (u : String) : List String :=
  if u ∈ s then s else s ++ [u]

/-- JS `new Set(list)` (spread back to an array): first occurrences in
order. -/
def jsSetOfList (l : List String) : List String :=
  l.foldl jsSetInsert []

/-- First-occurrence string replacement, as JS `String.prototype.replace`
with a string pattern (used for the alternative sitemap paths). -/
def replaceFirstList (pat rep : List Char) : List Char → List Char
  | [] => []
  | c :: rest =>
    if pat.isPrefixOf (c :: rest) then rep ++ (c :: rest).drop pat.length
    else c :: replaceFirstList pat rep rest

/-- `s.replace(pat, rep)` on strings (first occurrence only). -/
def replaceFirst (s pat rep : String) : String :=
  ⟨replaceFirstList pat.data rep.data s.data⟩

namespace GitBookToPDFConverter

/-- `GitBookToPDFConverter.filterUrls`: drop a URL matching any exclude
pattern; if include patterns exist keep only URLs matching one of them;
otherwise keep.  `m` is the external regex engine. -/
def filterUrls (m : Matcher) (cfg : Config) (urls : List String) : List String :=
  urls.filter fun url =>
    if cfg.excludePatterns.any fun pattern => m pattern url then false
    else if cfg.includePatterns.length > 0 then
      cfg.includePatterns.any fun pattern => m pattern url
    else true

/-- The enhanced urlset flattening:
`url => typeof url === 'string' ? url : (Array.isArray(url.loc) ? url.loc[0] : url.loc)`
followed by `.filter(Boolean)` (drops empty strings and `undefined`). -/
def extractLocEnhanced : SitemapEntry → Option String
  | .str s => if s = "" then none else some s
  | .entry (.single s) => if s = "" then none else some s
  | .entry (.multi ls) =>
    match ls.head? with
    | some s => if s = "" then none else some s
    | none => none

mutual

/-- `GitBookToPDFConverter.fetchSitemap(url, retryCount)`: fetch and parse
the document at `url` (collaborator `w`); recurse through sitemap indexes;
apply `filterUrls` to every successful result.  On a thrown error: retry
while `retryCount < config.retries`; otherwise, if `retryCount === 0`, walk
the three alternative sitemap paths; otherwise rethrow.  `fuel` bounds the
recursion depth of the model and strictly decreases on every call. -/
def fetchSitemap (m : Matcher) (w : World) (cfg : Config) :
    Nat → String → Nat → FetchResult
  | 0, _, _ => .fuelOut
  | Nat.succ fuel, url, retryCount =>
    match fetchSitemapTry m w cfg fuel url with
    | .ok urls => .ok (filterUrls m cfg urls)
    | .fuelOut => .fuelOut
    | .err =>
      if retryCount < cfg.retries then
        fetchSitemap m w cfg fuel url (retryCount + 1)
      else if retryCount = 0 then
        fetchAlternatives m w cfg fuel
          [replaceFirst url "/sitemap.xml" "/sitemap_index.xml",
           replaceFirst url "/sitemap.xml" "/sitemaps.xml",
           replaceFirst url "/sitemap.xml" "/sitemap-index.xml"]
      else .err

/-- The `try` block of the enhanced `fetchSitemap`: a sitemap index recurses
into its children, a urlset flattens its entries, and any other shape leaves
`urls` as the empty array it was initialised to. -/
def fetchSitemapTry (m : Matcher) (w : World) (cfg : Config) :
    Nat → String → FetchResult
  | 0, _ => .fuelOut
  | Nat.succ fuel, url =>
    match w url with
    | .error _ => .err
    | .ok (.sitemapindex children) => fetchChildren m w cfg fuel children
    | .ok (.urlset entries) => .ok (entries.filterMap extractLocEnhanced)
    | .ok .unknown => .ok []

/-- The child loop of the enhanced sitemap-index branch: concatenate the
children's results; a child's thrown error propagates to the caller's
`catch`. -/
def fetchChildren (m : Matcher) (w : World) (cfg : Config) :
    Nat → List String → FetchResult
  | 0, _ => .fuelOut
  | Nat.succ _, [] => .ok []
  | Nat.succ fuel, c :: rest =>
    match fetchSitemap m w cfg fuel c 0 with
    | .ok us =>
      match fetchChildren m w cfg fuel rest with
      | .ok vs => .ok (us ++ vs)
      | r => r
    | r => r

/-- The alternative-URL loop of the enhanced `fetchSitemap`: return the first
alternative that resolves; an alternative's thrown error moves on to the
next; all failing means the function rethrows. -/
def fetchAlternatives (m : Matcher) (w : World) (cfg : Config) :
    Nat → List String → FetchResult
  | 0, _ => .fuelOut
  | Nat.succ _, [] => .err
  | Nat.succ fuel, a :: rest =>
    match fetchSitemap m w cfg fuel a 0 with
    | .ok us => .ok us
    | .fuelOut => .fuelOut
    | .err => fetchAlternatives m w cfg fuel rest

end

end GitBookToPDFConverter

/-- The legacy urlset flattening (first `index.ts`):
`typeof url === 'string' ? url : (url.loc ? (typeof url.loc === 'string' ? url.loc : url.loc[0]) : null)`
followed by `.filter(url => Boolean(url))`. -/
def extractLocLegacy : SitemapEntry → Option String
  | .str s => if s = "" then none else some s
  | .entry (.single s) => if s = "" then none else some s
  | .entry (.multi ls) =>
    match ls.head? with
    | some s => if s = "" then none else some s
    | none => none

mutual

/-- The legacy `fetchSitemap(url)`: returns the flattened URL list or `null`
(modelled as `FetchResult.err`).  An unknown document shape logs and returns
`null`; a 404 falls back to the alternative paths built from the global
`URL_GITBOOK` (`g`); any other error returns `null`.  The alternative loop
body is `return await fetchSitemap(altUrl)`, and `fetchSitemap` resolves
(possibly to `null`) rather than throwing, so the loop always returns on its
first iteration. -/
def fetchSitemapLegacy (w : World) (g : String) : Nat → String → FetchResult
  | 0, _ => .fuelOut
  | Nat.succ fuel, url =>
    match w url with
    | .ok (.sitemapindex children) => fetchChildrenLegacy w g fuel children
    | .ok (.urlset entries) => .ok (entries.filterMap extractLocLegacy)
    | .ok .unknown => .err
    | .error .notFound => fetchSitemapLegacy w g fuel (g ++ "/sitemap_index.xml")
    | .error .other => .err

/-- The legacy child loop: `if (individualUrls) allUrls = allUrls.concat(...)`,
so a child that came back `null` is skipped and the remaining children are
still collected. -/
def fetchChildrenLegacy (w : World) (g : String) : Nat → List String → FetchResult
  | 0, _ => .fuelOut
  | Nat.succ _, [] => .ok []
  | Nat.succ fuel, c :: rest =>
    match fetchSitemapLegacy w g fuel c with
    | .fuelOut => .fuelOut
    | .err =>
      match fetchChildrenLegacy w g fuel rest with
      | .ok vs => .ok vs
      | r => r
    | .ok us =>
      match fetchChildrenLegacy w g fuel rest with
      | .ok vs => .ok (us ++ vs)
      | r => r

end

/-- The legacy `run()` post-processing of the fetched URL list (lines building
`validUrls`): filter out strings the external URL parser rejects, then
deduplicate through `[...new Set(...)]`. -/
def validUrls (isValidUrl : String → Bool) (urls : List String) : List String :=
  jsSetOfList (urls.filter isValidUrl)

/-- Result of one whole `process()` run: the final run state, the per-task
outcomes in submission order, and the final checkpoint written by the
closing `saveProgress()`; or a fatal error (the thrown sitemap failure); or
exhaustion of the model's sitemap-recursion fuel. -/
inductive ProcessOutcome
  | done (final : RunState) (results : List ProcessingResult) (file : Checkpoint)
  | fatal
  | fuelOut
deriving DecidableEq

/-- Final statistics of a completed run, if the run completed. -/
def finalStats : ProcessOutcome → Option ProcessingStats
  | .done st _ _ => some st.stats
  | _ => none

namespace GitBookToPDFConverter

/-- The field initialiser of `this.stats`: all counters zero. -/
def initialStats : ProcessingStats :=
  { total := 0, successful := 0, failed := 0, skipped := 0
    totalSize := 0, totalDuration := 0 }

/-- The converter's state at construction: zero stats, empty processed set. -/
def initialState : RunState :=
  { stats := initialStats, processedUrls := [] }

/-- `GitBookToPDFConverter.convertToPDF(url, outputPath)`.  In merge mode it
runs content extraction (collaborator result `extracted`) and pushes onto
`this.pageContents`; otherwise it drives the renderer once (collaborator
result `rendered`).  Every error is caught and becomes a `success: false`
result; the function never retries. -/
def convertToPDF (cfg : Config) (extracted : Option PageContent)
    (rendered : RenderOutcome) (pageContents : List PageContent)
    (url : String) (outputPath : String) :
    List PageContent × ProcessingResult :=
  if cfg.merge then
    match extracted with
    | some content =>
      (pageContents ++ [content],
       { url := url, success := true, error := none
         outputPath := some "merged", size := none, duration := 0 })
    | none =>
      (pageContents,
       { url := url, success := false, error := some "Failed to extract content"
         outputPath := none, size := none, duration := 0 })
  else
    match rendered with
    | .ok size duration =>
      (pageContents,
       { url := url, success := true, error := none
         outputPath := some outputPath, size := some size, duration := duration })
    | .fail e duration =>
      (pageContents,
       { url := url, success := false, error := some e
         outputPath := none, size := none, duration := duration })

/-- The stats update inside each task of `process()` (the block following
`const result = await this.convertToPDF(...)`): a success bumps
`successful`, `totalSize` (`result.size || 0`), `totalDuration`, and adds
the URL to `this.processedUrls`; a failure bumps `failed` only. -/
def recordOutcome (st : RunState) (result : ProcessingResult) : RunState :=
  if result.success then
    { stats := { st.stats with
        successful := st.stats.successful + 1
        totalSize := st.stats.totalSize + result.size.getD 0
        totalDuration := st.stats.totalDuration + result.duration }
      processedUrls := jsSetInsert st.processedUrls result.url }
  else
    { st with stats := { st.stats with failed := st.stats.failed + 1 } }

/-- The task list of `process()` (`urlsToProcess.map(url => limit(...))`),
sequentialised: the bounded pool runs tasks concurrently, but every task
performs exactly one `convertToPDF` call for its URL and one atomic stats
update, so the final state and the multiset of outcomes are those of this
fold.  `pathFor` abstracts the category-directory/file naming (out of
scope); `render url 0` is the renderer collaborator's response to the single
(first and only) invocation for `url`. -/
def processTasks (cfg : Config) (extract : String → Option PageContent)
    (render : String → Nat → RenderOutcome) (pathFor : String → String) :
    RunState → List PageContent → List String →
    RunState × List PageContent × List ProcessingResult
  | st, pageContents, [] => (st, pageContents, [])
  | st, pageContents, url :: rest =>
    let outputPath := if cfg.merge then "" else pathFor url
    let step := convertToPDF cfg (extract url) (render url 0) pageContents url outputPath
    let st' := recordOutcome st step.2
    let next := processTasks cfg extract render pathFor st' step.1 rest
    (next.1, next.2.1, step.2 :: next.2.2)

/-- `GitBookToPDFConverter.loadProgress()`: read the progress file; rebuild
`this.processedUrls` as `new Set(progress.processedUrls || [])` and merge
the saved stats over the current ones (`{...this.stats, ...progress.stats}`;
the saved record carries every field, so it wins wholesale).  A missing or
unreadable file leaves the state untouched. -/
def loadProgress (st : RunState) (file : Option Checkpoint) : RunState :=
  match file with
  | none => st
  | some progress =>
    { processedUrls := jsSetOfList progress.processedUrls
      stats := progress.stats }

/-- `GitBookToPDFConverter.saveProgress()`: serialise
`{ processedUrls: Array.from(this.processedUrls), stats: this.stats,
timestamp }`. -/
def saveProgress (st : RunState) (timestamp : String) : Checkpoint :=
  { processedUrls := st.processedUrls, stats := st.stats, timestamp := timestamp }

/-- The queue construction in `process()`:
`this.config.resume ? allUrls.filter(url => !this.processedUrls.has(url)) : allUrls`. -/
def urlsToProcess (cfg : Config) (st : RunState) (allUrls : List String) : List String :=
  if cfg.resume then
    allUrls.filter fun url => ! decide (url ∈ st.processedUrls)
  else allUrls

/-- `GitBookToPDFConverter.process()`: load progress when resuming, fetch the
sitemap at `config.url + '/sitemap.xml'`, filter out already-processed URLs,
set `stats.total` to the queue length, run the task pool, let merge mode
overwrite `stats.totalSize` with the merged file's size (when any content
was collected), and write the final checkpoint.  A sitemap failure is a
fatal error. -/
def process (m : Matcher) (w : World) (extract : String → Option PageContent)
    (render : String → Nat → RenderOutcome) (pathFor : String → String)
    (cfg : Config) (file : Option Checkpoint) (fuel : Nat)
    (mergedSize : Nat) (timestamp : String) : ProcessOutcome :=
  let st0 := if cfg.resume then loadProgress initialState file else initialState
  match fetchSitemap m w cfg fuel (cfg.url ++ "/sitemap.xml") 0 with
  | .fuelOut => .fuelOut
  | .err => .fatal
  | .ok allUrls =>
    let queue := urlsToProcess cfg st0 allUrls
    let st1 : RunState := { st0 with stats := { st0.stats with total := queue.length } }
    let out := processTasks cfg extract render pathFor st1 [] queue
    let st2 :=
      if cfg.merge && ! out.2.1.isEmpty then
        { out.1 with stats := { out.1.stats with totalSize := mergedSize } }
      else out.1
    .done st2 out.2.2 (saveProgress st2 timestamp)

end GitBookToPDFConverter

/-- How many times `u` occurs in a resolution result (0 on failure). -/
def resolvedCount (u : String) : FetchResult → Nat
  | .ok l => l.count u
  | _ => 0

/-- The CLI defaults of `setupCLI` (`url` is prompted; `"g"` stands in). -/
def cfgBase : Config :=
  { url := "g", outputDir := "./pdfs", concurrency := 3, retries := 3
    delay := 1000, hideElements := true, format := .A4, quality := .medium
    resume := false, includePatterns := [], excludePatterns := []
    timeout := 30000, merge := false }

/-- A concrete regex engine for witnesses: the pattern matches exactly the
URL equal to it. -/
def mEq : Matcher := fun pattern url => pattern == url

/-- A content extractor that always fails (irrelevant outside merge mode). -/
def extractNone : String → Option PageContent := fun _ => none

/-- A constant file-naming collaborator. -/
def pathConst : String → String := fun _ => "out.pdf"

/-- A renderer whose first attempt on any URL throws and whose later
attempts would succeed. -/
def renderFailThenOk : String → Nat → RenderOutcome :=
  fun _ attempt => if attempt = 0 then .fail "net error" 5 else .ok 100 5

/-- A renderer that always succeeds with a 1-byte artifact in 1 ms. -/
def renderOk : String → Nat → RenderOutcome := fun _ _ => .ok 1 1

/-- A resumed-run configuration (retries 0 keeps the sitemap path direct). -/
def cfgResume : Config := { cfgBase with resume := true, retries := 0 }

/-- A world whose root sitemap is a urlset listing `a` and `b`. -/
def worldAB : World := fun u =>
  if u = "g/sitemap.xml" then .ok (.urlset [.str "a", .str "b"])
  else .error .other

/-- A checkpoint that has already processed `a`, with zeroed stats. -/
def cpA : Checkpoint :=
  { processedUrls := ["a"], stats := GitBookToPDFConverter.initialStats
    timestamp := "t0" }

/-- A checkpoint from an interrupted 2-URL run: `a` processed, one success
and one failure recorded. -/
def cpHalf : Checkpoint :=
  { processedUrls := ["a"]
    stats := { total := 2, successful := 1, failed := 1, skipped := 0
               totalSize := 3, totalDuration := 4 }
    timestamp := "t0" }

/-- A world with a sitemap index at `r` over two urlsets that share the URL
`u`. -/
def worldIndexDup : World := fun q =>
  if q = "r" then .ok (.sitemapindex ["a", "b"])
  else if q = "a" then .ok (.urlset [.str "u", .str "v"])
  else if q = "b" then .ok (.urlset [.str "u", .str "w"])
  else .error .other

/-- Retry budget 1, otherwise the defaults. -/
def cfgRetryOne : Config := { cfgBase with retries := 1 }

/-- A world where the conventional sitemap path fails but the first
alternative path `s/sitemap_index.xml` resolves. -/
def worldAltOnly : World := fun q =>
  if q = "s/sitemap_index.xml" then .ok (.urlset [.str "u"])
  else .error .other

/-- A world where every fetch throws. -/
def worldAllFail : World := fun _ => .error .other

/-- A world whose root document parses to neither urlset nor sitemapindex. -/
def worldUnknown : World := fun q =>
  if q = "r" then .ok .unknown else .error .other

/-- A concrete successful task outcome. -/
def resultSucc : ProcessingResult :=
  { url := "u", success := true, error := none, outputPath := some "out.pdf"
    size := some 1, duration := 1 }

/-- A concrete failed task outcome. -/
def resultFail : ProcessingResult :=
  { url := "u", success := false, error := some "e", outputPath := none
    size := none, duration := 1 }

/-- Whether a renderer invocation succeeded. -/
def renderSucceeded : RenderOutcome → Bool
  | .ok _ _ => true
  | .fail _ _ => false

/-- The error reason of a renderer invocation, if it failed. -/
def renderError : RenderOutcome → Option String
  | .ok _ _ => none
  | .fail e _ => some e

/-- Defaults with one exclude pattern. -/
def cfgExclude : Config := { cfgBase with excludePatterns := ["x"] }

theorem jsSetInsert_mem (s : List String) (u v : String) :
    v ∈ jsSetInsert s u ↔ v ∈ s ∨ v = u := by
  unfold jsSetInsert
  by_cases h : u ∈ s
  · simp only [if_pos h]
    constructor
    · exact fun hv => Or.inl hv
    · rintro (hv | rfl)
      · exact hv
      · exact h
  · simp [if_neg h, List.mem_append]

theorem foldl_jsSetInsert_mem (l : List String) (acc : List String) (u : String) :
    u ∈ l.foldl jsSetInsert acc ↔ u ∈ acc ∨ u ∈ l := by
  induction l generalizing acc with
  | nil => simp
  | cons a t ih =>
    rw [List.foldl_cons, ih, jsSetInsert_mem]
    simp only [List.mem_cons]
    tauto

theorem jsSetOfList_mem (l : List String) (u : String) :
    u ∈ jsSetOfList l ↔ u ∈ l := by
  rw [jsSetOfList, foldl_jsSetInsert_mem]
  simp

theorem jsSetInsert_nodup (s : List String) (u : String) (h : s.Nodup) :
    (jsSetInsert s u).Nodup := by
  unfold jsSetInsert
  by_cases hm : u ∈ s
  · simpa [hm]
  · rw [if_neg hm]
    refine List.Nodup.append h (List.nodup_singleton u) ?_
    intro a ha hb
    rw [List.mem_singleton] at hb
    exact hm (hb ▸ ha)

theorem jsSetOfList_nodup (l : List String) : (jsSetOfList l).Nodup := by
  have key : ∀ (t acc : List String), acc.Nodup → (t.foldl jsSetInsert acc).Nodup := by
    intro t
    induction t with
    | nil => intro acc h; simpa
    | cons a t ih =>
      intro acc h
      rw [List.foldl_cons]
      exact ih _ (jsSetInsert_nodup acc a h)
  exact key l [] List.nodup_nil
theorem recordOutcome_counts (st : RunState) (r : ProcessingResult) :
    (GitBookToPDFConverter.recordOutcome st r).stats.successful
      + (GitBookToPDFConverter.recordOutcome st r).stats.failed
      = st.stats.successful + st.stats.failed + 1
    ∧ (GitBookToPDFConverter.recordOutcome st r).stats.skipped = st.stats.skipped
    ∧ (GitBookToPDFConverter.recordOutcome st r).stats.total = st.stats.total := by
  cases h : r.success <;>
    simp [GitBookToPDFConverter.recordOutcome, h] <;> omega

theorem processTasks_counts (cfg : Config) (extract : String → Option PageContent)
    (render : String → Nat → RenderOutcome) (pathFor : String → String) :
    ∀ (urls : List String) (st : RunState) (contents : List PageContent),
      ((GitBookToPDFConverter.processTasks cfg extract render pathFor st contents urls).1.stats.successful
        + (GitBookToPDFConverter.processTasks cfg extract render pathFor st contents urls).1.stats.failed
        = st.stats.successful + st.stats.failed + urls.length)
      ∧ (GitBookToPDFConverter.processTasks cfg extract render pathFor st contents urls).1.stats.skipped
        = st.stats.skipped
      ∧ (GitBookToPDFConverter.processTasks cfg extract render pathFor st contents urls).1.stats.total
        = st.stats.total := by
  intro urls
  induction urls with
  | nil => intro st contents; simp [GitBookToPDFConverter.processTasks]
  | cons u rest ih =>
    intro st contents
    simp only [GitBookToPDFConverter.processTasks, List.length_cons]
    generalize hX : GitBookToPDFConverter.convertToPDF cfg (extract u) (render u 0) contents u
      (if cfg.merge then "" else pathFor u) = X
    obtain ⟨h1, h2, h3⟩ := ih (GitBookToPDFConverter.recordOutcome st X.2) X.1
    obtain ⟨g1, g2, g3⟩ := recordOutcome_counts st X.2
    exact ⟨by omega, by omega, by omega⟩
/-- C4: for every URL and every include/exclude configuration, `filterUrls`
drops a URL matching any exclude pattern (even when it also matches an
include pattern); with a non-empty include list a non-excluded URL is kept
iff it matches some include pattern; with no include patterns a non-excluded
URL is kept. -/
theorem filterUrls_exclude_wins (m : Matcher) (cfg : Config)
    (urls : List String) (url : String) :
    ((cfg.excludePatterns.any fun pattern => m pattern url) = true →
      url ∉ GitBookToPDFConverter.filterUrls m cfg urls)
    ∧ ((cfg.excludePatterns.any fun pattern => m pattern url) = false →
        cfg.includePatterns ≠ [] →
        (url ∈ GitBookToPDFConverter.filterUrls m cfg urls ↔
          url ∈ urls ∧ (cfg.includePatterns.any fun pattern => m pattern url) = true))
    ∧ ((cfg.excludePatterns.any fun pattern => m pattern url) = false →
        cfg.includePatterns = [] →
        (url ∈ GitBookToPDFConverter.filterUrls m cfg urls ↔ url ∈ urls)) := by
  refine ⟨?_, ?_, ?_⟩
  · intro hex hmem
    rw [GitBookToPDFConverter.filterUrls, List.mem_filter] at hmem
    simp [hex] at hmem
  · intro hex hinc
    have hlen : cfg.includePatterns.length > 0 := List.length_pos.mpr hinc
    rw [GitBookToPDFConverter.filterUrls, List.mem_filter]
    simp [hex, hlen]
  · intro hex hinc
    rw [GitBookToPDFConverter.filterUrls, List.mem_filter]
    simp [hex, hinc]

/-- Witness for C4 at a concrete input: pattern list `["x"]` excludes the
URL `"x"` from the singleton input list. -/
theorem filterUrls_exclude_wins_witness :
    "x" ∉ GitBookToPDFConverter.filterUrls mEq cfgExclude ["x"] :=
  (filterUrls_exclude_wins mEq cfgExclude ["x"] "x").1 (by decide)

/-- C10: `filterUrls` returns a sublist of its input (no URL added, none
modified, relative order kept), and it is idempotent. -/
theorem filterUrls_sublist_idempotent (m : Matcher) (cfg : Config)
    (urls : List String) :
    (GitBookToPDFConverter.filterUrls m cfg urls).Sublist urls
    ∧ GitBookToPDFConverter.filterUrls m cfg (GitBookToPDFConverter.filterUrls m cfg urls)
      = GitBookToPDFConverter.filterUrls m cfg urls := by
  constructor
  · exact List.filter_sublist urls
  · unfold GitBookToPDFConverter.filterUrls
    rw [List.filter_filter]
    simp
/-- C8: recording a successful outcome adds its URL to the in-memory
processed set; recording a failure leaves the processed set unchanged, so a
resumed run will attempt that URL again. -/
theorem recordOutcome_marks_processed (st : RunState) (r : ProcessingResult) :
    (r.success = true →
      r.url ∈ (GitBookToPDFConverter.recordOutcome st r).processedUrls)
    ∧ (r.success = false →
      (GitBookToPDFConverter.recordOutcome st r).processedUrls = st.processedUrls) := by
  constructor
  · intro h
    simp only [GitBookToPDFConverter.recordOutcome, h, if_pos]
    rw [jsSetInsert_mem]
    exact Or.inr rfl
  · intro h
    simp [GitBookToPDFConverter.recordOutcome, h]

/-- Witness for C8 at concrete outcomes: a success on `"u"` lands in the
processed set, a failure on `"u"` leaves it empty. -/
theorem recordOutcome_marks_processed_witness :
    "u" ∈ (GitBookToPDFConverter.recordOutcome GitBookToPDFConverter.initialState
            resultSucc).processedUrls
    ∧ (GitBookToPDFConverter.recordOutcome GitBookToPDFConverter.initialState
        resultFail).processedUrls
      = GitBookToPDFConverter.initialState.processedUrls :=
  ⟨(recordOutcome_marks_processed GitBookToPDFConverter.initialState resultSucc).1 rfl,
   (recordOutcome_marks_processed GitBookToPDFConverter.initialState resultFail).2 rfl⟩

/-- C9: saving a checkpoint with `saveProgress` and loading it back with
`loadProgress` recovers the same statistics record and the same
processed-URL set (membership is preserved exactly; `new Set` re-deduplicates
the serialised array, which is already duplicate-free for a state built by
`Set.add`). -/
theorem saveProgress_loadProgress_roundtrip (st cur : RunState) (ts : String) :
    (GitBookToPDFConverter.loadProgress cur
      (some (GitBookToPDFConverter.saveProgress st ts))).stats = st.stats
    ∧ ∀ u : String,
        u ∈ (GitBookToPDFConverter.loadProgress cur
              (some (GitBookToPDFConverter.saveProgress st ts))).processedUrls
        ↔ u ∈ st.processedUrls := by
  constructor
  · rfl
  · intro u
    simp only [GitBookToPDFConverter.loadProgress, GitBookToPDFConverter.saveProgress]
    exact jsSetOfList_mem st.processedUrls u
/-- C5 counterexample: a sitemap index at `r` over two urlsets that share
the URL `"u"`.  The enhanced resolver returns the concatenation of the child
lists; `"u"` appears twice, so resolution does not deduplicate. -/
theorem fetchSitemap_duplicates_counterexample :
    resolvedCount "u" (GitBookToPDFConverter.fetchSitemap mEq worldIndexDup cfgBase 8 "r" 0)
      = 2 := by
  decide

/-- C5 (amended): the enhanced resolver concatenates child URL lists without
removing duplicates; deduplication happens only in the legacy entry point
`run()`, whose `validUrls` passes the fetched list through a JS `Set` after
dropping unparsable URLs — in that list every URL appears at most once, and
membership is exactly "was fetched and is valid". -/
theorem validUrls_dedup (isValidUrl : String → Bool) (urls : List String)
    (u : String) :
    (validUrls isValidUrl urls).count u ≤ 1
    ∧ (u ∈ validUrls isValidUrl urls ↔ u ∈ urls ∧ isValidUrl u = true) := by
  constructor
  · exact List.nodup_iff_count_le_one.mp (jsSetOfList_nodup (urls.filter isValidUrl)) u
  · rw [validUrls, jsSetOfList_mem, List.mem_filter]

/-- C7 counterexample: a root document that parses to neither `urlset` nor
`sitemapindex`.  The enhanced resolver succeeds with the empty URL list
instead of reporting a parse failure. -/
theorem fetchSitemap_unknown_shape_counterexample :
    GitBookToPDFConverter.fetchSitemap mEq worldUnknown cfgBase 3 "r" 0
      = FetchResult.ok [] := by
  decide

/-- C7 (amended): only the legacy `fetchSitemap` treats an unknown document
shape as a failure (it returns `null`); the enhanced resolver silently
returns an empty URL list for the same document. -/
theorem fetchSitemapLegacy_unknown_is_failure (w : World) (g url : String)
    (fuel : Nat) (hfuel : 0 < fuel) (hu : w url = Except.ok ParsedShape.unknown) :
    fetchSitemapLegacy w g fuel url = FetchResult.err := by
  obtain ⟨f, rfl⟩ : ∃ f, fuel = f + 1 := ⟨fuel - 1, by omega⟩
  simp [fetchSitemapLegacy, hu]

/-- Witness for C7's amended statement at a concrete input. -/
theorem fetchSitemapLegacy_unknown_is_failure_witness :
    fetchSitemapLegacy worldUnknown "g" 1 "r" = FetchResult.err :=
  fetchSitemapLegacy_unknown_is_failure worldUnknown "g" "r" 1 (by decide) rfl
/-- C6 counterexample: with `retries = 1`, the root path `s/sitemap.xml`
always failing and the first alternative path `s/sitemap_index.xml`
resolving, the enhanced resolver still reports the fatal error — the
alternative paths are never attempted (the `retryCount === 0` guard is
unreachable after a retry), contradicting the claim that the fatal error
comes only after the alternatives are exhausted. -/
theorem fetchSitemap_alternatives_unreachable_counterexample :
    GitBookToPDFConverter.fetchSitemap mEq worldAltOnly cfgRetryOne 6 "s/sitemap.xml" 0
      = FetchResult.err
    ∧ GitBookToPDFConverter.fetchSitemap mEq worldAltOnly cfgRetryOne 6 "s/sitemap_index.xml" 0
      = FetchResult.ok ["u"] := by
  constructor <;> decide

/-- C6 (amended): whenever `config.retries ≥ 1` and the fetch of `url`
itself always throws, the resolver reports the fatal error straight after
the retry budget, for every world — in particular regardless of what any
alternative path would return, so no alternative is ever consulted.  (The
alternative-path loop runs only when `retries = 0`.)  The fuel bounds make
the budget reachable within the model. -/
theorem fetchSitemap_retries_skip_alternatives (m : Matcher) (w : World)
    (cfg : Config) (url : String) (e : FetchErr) :
    ∀ (fuel retryCount : Nat), w url = Except.error e → 1 ≤ cfg.retries →
      2 ≤ fuel → cfg.retries + 2 ≤ retryCount + fuel →
      GitBookToPDFConverter.fetchSitemap m w cfg fuel url retryCount
        = FetchResult.err := by
  intro fuel
  induction fuel with
  | zero => intro rc _ _ h2 _; omega
  | succ f ih =>
    intro rc hw h1 h2 h3
    obtain ⟨f', rfl⟩ : ∃ f', f = f' + 1 := ⟨f - 1, by omega⟩
    have htry : GitBookToPDFConverter.fetchSitemapTry m w cfg (f' + 1) url
        = FetchResult.err := by
      simp [GitBookToPDFConverter.fetchSitemapTry, hw]
    simp only [GitBookToPDFConverter.fetchSitemap, htry]
    by_cases hrc : rc < cfg.retries
    · rw [if_pos hrc]
      exact ih (rc + 1) hw h1 (by omega) (by omega)
    · rw [if_neg hrc]
      have hne : ¬ rc = 0 := by omega
      rw [if_neg hne]

/-- Witness for C6's amended statement: every fetch fails, `retries = 1`,
so the run reports the fatal error. -/
theorem fetchSitemap_retries_skip_alternatives_witness :
    GitBookToPDFConverter.fetchSitemap mEq worldAllFail cfgRetryOne 6 "s/sitemap.xml" 0
      = FetchResult.err :=
  fetchSitemap_retries_skip_alternatives mEq worldAllFail cfgRetryOne "s/sitemap.xml"
    FetchErr.other 6 0 rfl (by decide) (by decide) (by decide)
/-- C1 counterexample: `maxRetries = 3` (the default) and a renderer whose
first attempt on the only queued URL throws but whose second attempt would
succeed.  The claim requires exactly one `Success` outcome and no `Failure`;
the scheduler emits no `Success` and one `Failure`, because `convertToPDF`
is invoked exactly once per URL and `config.retries` is never consulted
during conversion. -/
theorem scheduler_no_retry_counterexample :
    ((GitBookToPDFConverter.processTasks cfgBase extractNone renderFailThenOk pathConst
        GitBookToPDFConverter.initialState [] ["u"]).2.2.filter
      (fun r => r.success)).length = 0
    ∧ ((GitBookToPDFConverter.processTasks cfgBase extractNone renderFailThenOk pathConst
        GitBookToPDFConverter.initialState [] ["u"]).2.2.filter
      (fun r => ! r.success)).length = 1 := by
  constructor <;> decide

/-- C1 (amended): outside merge mode the scheduler emits exactly one outcome
per queued URL, in queue order; the outcome is a `Success` iff the single
renderer invocation for that URL (its first and only attempt) succeeds, and
otherwise it is a `Failure` carrying that invocation's error reason —
`config.maxRetries` plays no part in per-URL conversion. -/
theorem processTasks_single_attempt (cfg : Config)
    (extract : String → Option PageContent) (render : String → Nat → RenderOutcome)
    (pathFor : String → String) (hm : cfg.merge = false) :
    ∀ (urls : List String) (st : RunState) (contents : List PageContent),
      ((GitBookToPDFConverter.processTasks cfg extract render pathFor st contents urls).2.2).map
        (fun r => (r.url, r.success, r.error))
      = urls.map (fun u => (u, renderSucceeded (render u 0), renderError (render u 0))) := by
  intro urls
  induction urls with
  | nil => intro st contents; simp [GitBookToPDFConverter.processTasks]
  | cons u rest ih =>
    intro st contents
    simp only [GitBookToPDFConverter.processTasks, List.map_cons]
    cases hr : render u 0 <;>
      simp [GitBookToPDFConverter.convertToPDF, hm, hr, renderSucceeded, renderError, ih]

/-- Witness for C1's amended statement: one URL, a succeeding renderer, one
`Success` outcome. -/
theorem processTasks_single_attempt_witness :
    ((GitBookToPDFConverter.processTasks cfgBase extractNone renderOk pathConst
        GitBookToPDFConverter.initialState [] ["a"]).2.2).map
      (fun r => (r.url, r.success, r.error))
    = [("a", true, (none : Option String))] := by
  have h := processTasks_single_attempt cfgBase extractNone renderOk pathConst rfl
    ["a"] GitBookToPDFConverter.initialState []
  simpa using h
theorem processTasks_skipped (cfg : Config) (extract : String → Option PageContent)
    (render : String → Nat → RenderOutcome) (pathFor : String → String)
    (st : RunState) (contents : List PageContent) (urls : List String) :
    (GitBookToPDFConverter.processTasks cfg extract render pathFor st contents urls).1.stats.skipped
      = st.stats.skipped :=
  (processTasks_counts cfg extract render pathFor urls st contents).2.1

theorem processTasks_total (cfg : Config) (extract : String → Option PageContent)
    (render : String → Nat → RenderOutcome) (pathFor : String → String)
    (st : RunState) (contents : List PageContent) (urls : List String) :
    (GitBookToPDFConverter.processTasks cfg extract render pathFor st contents urls).1.stats.total
      = st.stats.total :=
  (processTasks_counts cfg extract render pathFor urls st contents).2.2

theorem processTasks_succ_failed (cfg : Config) (extract : String → Option PageContent)
    (render : String → Nat → RenderOutcome) (pathFor : String → String)
    (st : RunState) (contents : List PageContent) (urls : List String) :
    (GitBookToPDFConverter.processTasks cfg extract render pathFor st contents urls).1.stats.successful
      + (GitBookToPDFConverter.processTasks cfg extract render pathFor st contents urls).1.stats.failed
      = st.stats.successful + st.stats.failed + urls.length :=
  (processTasks_counts cfg extract render pathFor urls st contents).1

theorem mergeAdjust_skipped (b : Bool) (st2 : RunState) (n : Nat) :
    (if b = true then { st2 with stats := { st2.stats with totalSize := n } }
     else st2).stats.skipped = st2.stats.skipped := by
  cases b <;> simp

theorem mergeAdjust_successful (b : Bool) (st2 : RunState) (n : Nat) :
    (if b = true then { st2 with stats := { st2.stats with totalSize := n } }
     else st2).stats.successful = st2.stats.successful := by
  cases b <;> simp

theorem mergeAdjust_failed (b : Bool) (st2 : RunState) (n : Nat) :
    (if b = true then { st2 with stats := { st2.stats with totalSize := n } }
     else st2).stats.failed = st2.stats.failed := by
  cases b <;> simp

theorem mergeAdjust_total (b : Bool) (st2 : RunState) (n : Nat) :
    (if b = true then { st2 with stats := { st2.stats with totalSize := n } }
     else st2).stats.total = st2.stats.total := by
  cases b <;> simp

theorem process_done_stats (m : Matcher) (w : World)
    (extract : String → Option PageContent) (render : String → Nat → RenderOutcome)
    (pathFor : String → String) (cfg : Config) (file : Option Checkpoint)
    (fuel mergedSize : Nat) (ts : String)
    (st : RunState) (rs : List ProcessingResult) (cpOut : Checkpoint)
    (h : GitBookToPDFConverter.process m w extract render pathFor cfg file fuel mergedSize ts
          = ProcessOutcome.done st rs cpOut) :
    st.stats.skipped
      = (if cfg.resume = true
         then GitBookToPDFConverter.loadProgress GitBookToPDFConverter.initialState file
         else GitBookToPDFConverter.initialState).stats.skipped
    ∧ st.stats.successful + st.stats.failed
      = (if cfg.resume = true
         then GitBookToPDFConverter.loadProgress GitBookToPDFConverter.initialState file
         else GitBookToPDFConverter.initialState).stats.successful
        + (if cfg.resume = true
           then GitBookToPDFConverter.loadProgress GitBookToPDFConverter.initialState file
           else GitBookToPDFConverter.initialState).stats.failed
        + st.stats.total := by
  simp only [GitBookToPDFConverter.process] at h
  split at h
  · simp at h
  · simp at h
  · injection h with h1 h2 h3
    subst h1
    rw [mergeAdjust_skipped, mergeAdjust_successful, mergeAdjust_failed, mergeAdjust_total,
      processTasks_skipped, processTasks_succ_failed, processTasks_total]
    simp
/-- C2 counterexample: resuming with a checkpoint that has processed `"a"`
(with zeroed saved stats) against the resolved list `["a", "b"]`.  One
resolved URL is filtered out as already processed, but `stats.skipped`
stays `0` at run end: the filtering never updates the skipped counter. -/
theorem process_skipped_not_counted_counterexample :
    (finalStats (GitBookToPDFConverter.process mEq worldAB extractNone renderOk pathConst
        cfgResume (some cpA) 4 0 "t")).map ProcessingStats.skipped
    ≠ some ((["a", "b"].filter fun u => decide (u ∈ cpA.processedUrls)).length) := by
  decide

/-- C2 (amended): on a resumed run the work queue handed to the scheduler
contains no URL of the loaded checkpoint's processed set; but `stats.skipped`
is never updated by the filtering — at run end it still equals the skipped
value stored in the loaded checkpoint, not the number of resolved URLs
filtered out. -/
theorem process_resume_queue_and_skipped (m : Matcher) (w : World)
    (extract : String → Option PageContent) (render : String → Nat → RenderOutcome)
    (pathFor : String → String) (cfg : Config) (cp : Checkpoint)
    (allUrls : List String) (fuel mergedSize : Nat) (ts : String)
    (hres : cfg.resume = true) :
    (∀ u ∈ (GitBookToPDFConverter.loadProgress GitBookToPDFConverter.initialState
              (some cp)).processedUrls,
        u ∉ GitBookToPDFConverter.urlsToProcess cfg
              (GitBookToPDFConverter.loadProgress GitBookToPDFConverter.initialState
                (some cp)) allUrls)
    ∧ (∀ (st : RunState) (rs : List ProcessingResult) (cpOut : Checkpoint),
        GitBookToPDFConverter.process m w extract render pathFor cfg (some cp)
            fuel mergedSize ts = ProcessOutcome.done st rs cpOut →
        st.stats.skipped = cp.stats.skipped) := by
  constructor
  · intro u hu hmem
    rw [GitBookToPDFConverter.urlsToProcess, if_pos hres, List.mem_filter] at hmem
    simp at hmem
    exact hmem.2 hu
  · intro st rs cpOut h
    obtain ⟨h1, -⟩ := process_done_stats m w extract render pathFor cfg (some cp)
      fuel mergedSize ts st rs cpOut h
    rw [hres] at h1
    simpa [GitBookToPDFConverter.loadProgress] using h1

/-- Witness for C2's amended statement on a concrete resumed run: `"a"` is
kept out of the queue and the final skipped counter equals the loaded one. -/
theorem process_resume_queue_and_skipped_witness :
    "a" ∉ GitBookToPDFConverter.urlsToProcess cfgResume
        (GitBookToPDFConverter.loadProgress GitBookToPDFConverter.initialState (some cpA))
        ["a", "b"]
    ∧ (RunState.mk ⟨1, 1, 0, 0, 1, 1⟩ ["a", "b"]).stats.skipped = cpA.stats.skipped :=
  ⟨(process_resume_queue_and_skipped mEq worldAB extractNone renderOk pathConst cfgResume
      cpA ["a", "b"] 4 0 "t" rfl).1 "a" (by decide),
   (process_resume_queue_and_skipped mEq worldAB extractNone renderOk pathConst cfgResume
      cpA ["a", "b"] 4 0 "t" rfl).2 (RunState.mk ⟨1, 1, 0, 0, 1, 1⟩ ["a", "b"])
      [⟨"b", true, none, some "out.pdf", some 1, 1⟩]
      ⟨["a", "b"], ⟨1, 1, 0, 0, 1, 1⟩, "t"⟩ (by decide)⟩

/-- C3 counterexample: a resumed run loads saved stats (1 success, 1 failure
over 2 URLs) and then resets `stats.total` to the filtered queue length (1);
after processing the one remaining URL the final stats give
`successful + failed + skipped = 3 ≠ 1 = total`. -/
theorem process_resumed_stats_partition_counterexample :
    (finalStats (GitBookToPDFConverter.process mEq worldAB extractNone renderOk pathConst
        cfgResume (some cpHalf) 4 0 "t")).map
      (fun s => decide (s.successful + s.failed + s.skipped = s.total))
    = some false := by
  decide

/-- C3 (amended): on every fresh run (`resume = false`) that completes,
`stats.successful + stats.failed + stats.skipped = stats.total`; on resumed
runs the invariant can fail because loaded counters carry over while `total`
is reset to the filtered queue length and `skipped` is never updated. -/
theorem process_fresh_stats_partition (m : Matcher) (w : World)
    (extract : String → Option PageContent) (render : String → Nat → RenderOutcome)
    (pathFor : String → String) (cfg : Config) (file : Option Checkpoint)
    (fuel mergedSize : Nat) (ts : String) (hres : cfg.resume = false)
    (st : RunState) (rs : List ProcessingResult) (cpOut : Checkpoint)
    (h : GitBookToPDFConverter.process m w extract render pathFor cfg file fuel mergedSize ts
          = ProcessOutcome.done st rs cpOut) :
    st.stats.successful + st.stats.failed + st.stats.skipped = st.stats.total := by
  obtain ⟨h1, h2⟩ := process_done_stats m w extract render pathFor cfg file
    fuel mergedSize ts st rs cpOut h
  rw [hres] at h1 h2
  simp [GitBookToPDFConverter.initialState, GitBookToPDFConverter.initialStats] at h1 h2
  omega

/-- Witness for C3's amended statement on a concrete fresh run of two URLs,
both succeeding. -/
theorem process_fresh_stats_partition_witness :
    (RunState.mk ⟨2, 2, 0, 0, 2, 2⟩ ["a", "b"]).stats.successful
      + (RunState.mk ⟨2, 2, 0, 0, 2, 2⟩ ["a", "b"]).stats.failed
      + (RunState.mk ⟨2, 2, 0, 0, 2, 2⟩ ["a", "b"]).stats.skipped
    = (RunState.mk ⟨2, 2, 0, 0, 2, 2⟩ ["a", "b"]).stats.total :=
  process_fresh_stats_partition mEq worldAB extractNone renderOk pathConst cfgBase none
    4 0 "t" rfl (RunState.mk ⟨2, 2, 0, 0, 2, 2⟩ ["a", "b"])
    [⟨"a", true, none, some "out.pdf", some 1, 1⟩,
     ⟨"b", true, none, some "out.pdf", some 1, 1⟩]
    ⟨["a", "b"], ⟨2, 2, 0, 0, 2, 2⟩, "t"⟩ (by decide)
